import Mathlib

/-!
# Verification of `document_merge_service/api/views.py`

A shallow embedding of the merge-and-convert pipeline of the
document-merge-service repository (`views.py`), together with theorems
settling the specification's claims about it.

The embedding models:
* `walk_nested` — the recursive tree transformer;
* `transform` — the leaf rewrite rule defined inside `TemplateView.merge`;
* `TemplateView.merge` — the merge orchestrator, as a function from the
  external environment (template storage, `mimetypes`, the engine renderer,
  the unoconv subprocess, the remote HTTP service) to an `Except` result
  paired with an ordered trace of observable side effects;
* `DownloadTemplateView.retrieve` — the download endpoint.

Machine-level Python behaviour that matters to the claims (the `with`
statement's guaranteed cleanup, CPython `mimetypes.guess_extension(None)`
raising `AttributeError`, truthiness of the `convert` field) is made
explicit in the definitions, with comments pointing at the source lines.
-/

/-- A scalar leaf of the nested request data: Python strings, numbers,
booleans, `None`, and `docxtpl.RichText` wrapper values. -/
inductive Scalar where
  | str (s : String)
  | int (n : Int)
  | bool (b : Bool)
  | null
  | rich (s : String)
  deriving DecidableEq, Repr

/-- A nested JSON-like value: mappings (association lists of string keys,
in insertion order, as Python dicts preserve it), sequences, or scalars.
Mirrors the dynamic tree `walk_nested` receives. -/
inductive Value where
  | scalar (s : Scalar)
  | dict (entries : List (String × Value))
  | list (elems : List Value)

mutual
/-- `walk_nested(data, fn)` from `views.py` lines 18–23: recurse through
dicts (preserving keys) and lists (preserving order), apply `fn` to every
other value. Returns a fresh structure; the input is not written to. -/
def walk_nested : Value → (Scalar → Scalar) → Value
  | Value.dict entries, fn => Value.dict (walkEntries entries fn)
  | Value.list elems, fn => Value.list (walkElems elems fn)
  | Value.scalar s, fn => Value.scalar (fn s)

/-- The dict comprehension of `walk_nested`, entry by entry. -/
def walkEntries : List (String × Value) → (Scalar → Scalar) → List (String × Value)
  | [], _ => []
  | (k, v) :: rest, fn => (k, walk_nested v fn) :: walkEntries rest fn

/-- The list comprehension of `walk_nested`, element by element. -/
def walkElems : List Value → (Scalar → Scalar) → List Value
  | [], _ => []
  | v :: rest, fn => walk_nested v fn :: walkElems rest fn
end

/-- The shape of a nested value: key sets (with order) of every mapping,
length and order of every sequence, with leaves erased. -/
inductive Shape where
  | scalar
  | dict (entries : List (String × Shape))
  | list (elems : List Shape)

mutual
/-- Shape of a value. -/
def Value.shape : Value → Shape
  | Value.dict entries => Shape.dict (entriesShape entries)
  | Value.list elems => Shape.list (elemsShape elems)
  | Value.scalar _ => Shape.scalar

def entriesShape : List (String × Value) → List (String × Shape)
  | [] => []
  | (k, v) :: rest => (k, v.shape) :: entriesShape rest

def elemsShape : List Value → List Shape
  | [] => []
  | v :: rest => v.shape :: elemsShape rest
end

mutual
/-- Leaf scalars of a value, in depth-first order. -/
def Value.leaves : Value → List Scalar
  | Value.dict entries => entriesLeaves entries
  | Value.list elems => elemsLeaves elems
  | Value.scalar s => [s]

def entriesLeaves : List (String × Value) → List Scalar
  | [] => []
  | (_, v) :: rest => v.leaves ++ entriesLeaves rest

def elemsLeaves : List Value → List Scalar
  | [] => []
  | v :: rest => v.leaves ++ elemsLeaves rest
end


/-- The `transform` closure defined inside `TemplateView.merge`
(views.py lines 61–66): a string containing a newline is wrapped into
`RichText`; every other value is returned unchanged. Python tests
newline presence with the substring operator; for the single-character
needle this is membership of the newline character in the string's
characters, which is how it is embedded here. -/
def transform (value : Scalar) : Scalar :=
  match value with
  | Scalar.str s => if '\n' ∈ s.data then Scalar.rich s else Scalar.str s
  | v => v

/-- Python exceptions raised on the code paths the claims touch.
`attributeError` is what CPython `mimetypes.guess_extension(None)` raises
(it calls `type.lower()` on its argument); `keyError` is a missing
dict key; `validationError` is DRF `serializer.is_valid(raise_exception=True)`;
`subprocessError` stands for any exception out of `unoconv.process`. -/
inductive PyError where
  | attributeError
  | keyError (k : String)
  | validationError
  | subprocessError
  deriving DecidableEq, Repr

/-- A stored template file: its storage name (used for MIME guessing) and
its stored bytes. -/
structure FileField where
  name : String
  content : List Nat
  deriving DecidableEq, Repr

/-- `FieldFile.read()`: the stored bytes. -/
def FileField.read (f : FileField) : List Nat := f.content

/-- `FieldFile.size`: the stored byte size. -/
def FileField.size (f : FileField) : Nat := f.content.length

/-- The `Template` model row as the views use it: `slug`, `engine`
identifier, and the stored file. -/
structure Template where
  slug : String
  engine : String
  template : FileField
  deriving DecidableEq, Repr

/-- One row of `settings.UNOCONV_FORMATS`: the static per-format
configuration with keys `extension` and `mime`. -/
structure Format where
  extension : String
  mime : String
  deriving DecidableEq, Repr

/-- The Django settings the merge path reads. -/
structure Settings where
  UNOCONV_LOCAL : Bool
  UNOCONV_PYTHON : String
  UNOCONV_PATH : String
  UNOCONV_URL : String
  UNOCONV_FORMATS : List (String × Format)

/-- Result of `unoconv.process`: the subprocess exit code, captured
standard output, and the content type from the converter's result
metadata. -/
structure ProcResult where
  returncode : Int
  stdout : List Nat
  content_type : String
  deriving DecidableEq, Repr

/-- A `requests` response from the remote conversion service. -/
structure RemoteResponse where
  status_code : Nat
  content : List Nat
  deriving DecidableEq, Repr

/-- A Django `HttpResponse` as the views populate it: body bytes, HTTP
status (`HttpResponse` defaults to 200), content type, and the two headers
the views set. -/
structure Response where
  content : List Nat
  status : Nat
  contentType : String
  contentDisposition : Option String
  contentLength : Option Nat
  deriving DecidableEq, Repr

/-- The external collaborators of the views, fixed for one request:
`mimetypes` lookup tables, the engine's renderer, the OS-chosen temporary
file path, the unoconv subprocess, and the remote HTTP service. -/
structure Env where
  guess_type : String → Option String
  extension_for : String → String
  render : Value → List Nat
  tmpfile_name : String
  unoconv_process : String → String → Except PyError ProcResult
  remote_post : String → List Nat → RemoteResponse

/-- `mimetypes.guess_extension` as called by the views: on `None` CPython
raises `AttributeError` (`type.lower()` on `None`); on a recognized
content-type string it returns the mapped extension (with its leading
dot, e.g. ".docx"), here the external table `env.extension_for`. -/
def guess_extension (env : Env) : Option String → Except PyError String
  | none => Except.error PyError.attributeError
  | some ct => Except.ok (env.extension_for ct)

/-- The raw request payload before validation: an optional `data` member
and an optional `convert` member, each an arbitrary JSON value. -/
structure Payload where
  dataField : Option Value
  convertField : Option Value

/-- Modelled from the spec: `serializers.TemplateMergeSerializer` is not
under `src/`; per the spec the payload "must conform to the MergeRequest
shape (has a `data` field; `convert`, if present, is a string); invalid
payload fails with `ValidationError`". On success it yields the `data`
tree and the optional `convert` string. -/
def serializer_is_valid (p : Payload) : Except PyError (Value × Option String) :=
  match p.dataField with
  | none => Except.error PyError.validationError
  | some d =>
    match p.convertField with
    | none => Except.ok (d, none)
    | some (Value.scalar (Scalar.str c)) => Except.ok (d, some c)
    | some _ => Except.error PyError.validationError

/-- Modelled from the spec: `engines.get_engine(...).merge(data, response)`
is not under `src/`; per the spec the Engine "renders `data` into the
template, writing bytes into `output_sink`" and "returns the same sink
populated". The rendering itself is the external `env.render`. -/
def Engine.merge (env : Env) (data : Value) (sink : Response) : Response :=
  { sink with content := env.render data }

/-- Python truthiness of `serializer.data.get("convert")` at line 71:
`None` (key absent) and the empty string are falsy. -/
def truthy : Option String → Bool
  | none => false
  | some s => !(s == "")

/-- Observable side effects of one `TemplateView.merge` call, in program
order: the data transform, the engine render, the temporary-file
lifecycle of local conversion, the unoconv subprocess run, and the HTTP
POST of remote conversion. -/
inductive Event where
  | transformData
  | engineMerge
  | tmpCreate
  | tmpWrite
  | unoconvRun
  | tmpDelete
  | networkPost (url : String)
  deriving DecidableEq, Repr

/-- Lines 102–103: the filename f-string `slug`, a dot, `extension`, and
the `Content-Disposition` attachment header built from it. -/
def finalize (slug extension : String) (response : Response) : Response :=
  let header := "attachment; filename=\"" ++ slug ++ "." ++ extension ++ "\""
  { response with contentDisposition := some header }

/-- `TemplateView.merge` (views.py lines 48–104), returning the response
(or the Python exception that escapes) and the ordered trace of
observable side effects. Line-by-line:
* line 52 — `content_type, _ = mimetypes.guess_type(template.template.name)`;
* lines 53–55 — `HttpResponse(content_type=content_type or "application/force-download")`,
  status defaulting to 200;
* line 56 — `extension = mimetypes.guess_extension(content_type)`, which
  raises `AttributeError` when `content_type` is `None`;
* lines 58–59 — serializer validation with `raise_exception=True`;
* line 67 — `walk_nested(serializer.data["data"], transform)`;
* line 69 — `engine.merge(data, response)`;
* line 71 — `if convert:` (absent or empty string falsy);
* lines 73–88 — local mode: the `with NamedTemporaryFile` block writes the
  rendered bytes, runs `unoconv.process(tmp.name, convert)`, and the
  `with` statement deletes the file on both return and exception; then
  `extension = convert`, status 500 unless `returncode == 0`, and a fresh
  `HttpResponse` from `result.stdout` and `result.content_type`;
* lines 90–100 — remote mode: POST to `UNOCONV_URL + "/unoconv/" + convert`
  first, then `settings.UNOCONV_FORMATS[convert]` (a missing key raises
  `KeyError` after the POST has happened), then a fresh `HttpResponse`
  passing the remote status and body through with the table's mime;
* lines 102–103 — the Content-Disposition header via `finalize`. -/
def TemplateView.merge (env : Env) (settings : Settings) (template : Template)
    (payload : Payload) : Except PyError Response × List Event :=
  let content_type := env.guess_type template.template.name
  let response : Response :=
    { content := [], status := 200,
      contentType := content_type.getD "application/force-download",
      contentDisposition := none, contentLength := none }
  match guess_extension env content_type with
  | Except.error e => (Except.error e, [])
  | Except.ok extension =>
    match serializer_is_valid payload with
    | Except.error e => (Except.error e, [])
    | Except.ok (rawData, convert) =>
      let data := walk_nested rawData transform
      let response := Engine.merge env data response
      let trace0 : List Event := [Event.transformData, Event.engineMerge]
      if truthy convert then
        let c := convert.getD ""
        if settings.UNOCONV_LOCAL then
          match env.unoconv_process env.tmpfile_name c with
          | Except.error e =>
              (Except.error e,
               trace0 ++ [Event.tmpCreate, Event.tmpWrite, Event.unoconvRun, Event.tmpDelete])
          | Except.ok result =>
              let extension := c
              let status : Nat := if result.returncode = 0 then 200 else 500
              let response : Response :=
                { content := result.stdout, status := status,
                  contentType := result.content_type,
                  contentDisposition := none, contentLength := none }
              (Except.ok (finalize template.slug extension response),
               trace0 ++ [Event.tmpCreate, Event.tmpWrite, Event.unoconvRun, Event.tmpDelete])
        else
          let url := settings.UNOCONV_URL ++ "/unoconv/" ++ c
          let requests_response := env.remote_post url response.content
          match settings.UNOCONV_FORMATS.lookup c with
          | none => (Except.error (PyError.keyError c), trace0 ++ [Event.networkPost url])
          | some fmt =>
              let extension := fmt.extension
              let response : Response :=
                { content := requests_response.content,
                  status := requests_response.status_code,
                  contentType := fmt.mime,
                  contentDisposition := none, contentLength := none }
              (Except.ok (finalize template.slug extension response),
               trace0 ++ [Event.networkPost url])
      else
        (Except.ok (finalize template.slug extension response), trace0)

/-- `DownloadTemplateView.retrieve` (views.py lines 111–124): guess the
MIME type from the stored filename, compute the extension (raising
`AttributeError` on an unrecognized name, line 115), then stream the
stored bytes with attachment disposition `slug + extension` and explicit
`Content-Length = template.template.size`. -/
def DownloadTemplateView.retrieve (env : Env) (template : Template) :
    Except PyError Response :=
  let mime_type := env.guess_type template.template.name
  match guess_extension env mime_type with
  | Except.error e => Except.error e
  | Except.ok extension =>
    let content_type := mime_type.getD "application/force-download"
    let header := "attachment; filename=\"" ++ template.slug ++ extension ++ "\""
    Except.ok
      { content := template.template.read,
        status := 200,
        contentType := content_type,
        contentDisposition := some header,
        contentLength := some template.template.size }

/-- A fixture template: a `.doc` file of two stored bytes. -/
def docTemplate : Template :=
  { slug := "tpl", engine := "docx-template",
    template := { name := "a.doc", content := [9, 9] } }

/-- A successful converter result with exit code 0. -/
def procOk : ProcResult :=
  { returncode := 0, stdout := [80], content_type := "application/pdf" }

/-- A fixture environment: `mimetypes` recognizes the template name as
`application/msword` with extension ".doc" (CPython's `guess_extension`
includes the leading dot), rendering yields fixed bytes, the unoconv
subprocess raises an exception, and the remote service answers 500. -/
def failEnv : Env :=
  { guess_type := fun _ => some "application/msword",
    extension_for := fun _ => ".doc",
    render := fun _ => [104, 105],
    tmpfile_name := "/tmp/upload",
    unoconv_process := fun _ _ => Except.error PyError.subprocessError,
    remote_post := fun _ _ => { status_code := 500, content := [101] } }

/-- A fixture environment whose unoconv subprocess succeeds. -/
def okEnv : Env :=
  { failEnv with unoconv_process := fun _ _ => Except.ok procOk }

/-- A fixture environment where `mimetypes.guess_type` recognizes
nothing. -/
def noMimeEnv : Env :=
  { failEnv with guess_type := fun _ => none }

/-- Local-mode settings. -/
def localSettings : Settings :=
  { UNOCONV_LOCAL := true, UNOCONV_PYTHON := "python3", UNOCONV_PATH := "unoconv",
    UNOCONV_URL := "http://conv", UNOCONV_FORMATS := [] }

/-- Remote-mode settings with only `pdf` configured. -/
def remoteSettings : Settings :=
  { localSettings with
    UNOCONV_LOCAL := false,
    UNOCONV_FORMATS := [("pdf", { extension := "pdf", mime := "application/pdf" })] }

/-- Remote-mode settings with an empty format table. -/
def emptyFormatsSettings : Settings :=
  { localSettings with UNOCONV_LOCAL := false }

/-- A valid payload without a `convert` member. -/
def payloadNoConvert : Payload :=
  { dataField := some (Value.scalar (Scalar.int 1)), convertField := none }

/-- A valid payload requesting conversion to `pdf`. -/
def payloadPdf : Payload :=
  { dataField := some (Value.scalar (Scalar.int 1)),
    convertField := some (Value.scalar (Scalar.str "pdf")) }

/-- An invalid payload: no `data` member. -/
def payloadNoData : Payload :=
  { dataField := none, convertField := none }

theorem walk_nested_shape (v : Value) (fn : Scalar → Scalar) :
    (walk_nested v fn).shape = v.shape := by
  refine walk_nested.induct
    (fun v fn => (walk_nested v fn).shape = v.shape)
    (fun l fn => elemsShape (walkElems l fn) = elemsShape l)
    (fun l fn => entriesShape (walkEntries l fn) = entriesShape l)
    ?_ ?_ ?_ ?_ ?_ ?_ ?_ v fn
  all_goals intros; simp_all [walk_nested, walkEntries, walkElems, Value.shape, entriesShape, elemsShape]

theorem walk_nested_leaves (v : Value) (fn : Scalar → Scalar) :
    (walk_nested v fn).leaves = v.leaves.map fn := by
  refine walk_nested.induct
    (fun v fn => (walk_nested v fn).leaves = v.leaves.map fn)
    (fun l fn => elemsLeaves (walkElems l fn) = (elemsLeaves l).map fn)
    (fun l fn => entriesLeaves (walkEntries l fn) = (entriesLeaves l).map fn)
    ?_ ?_ ?_ ?_ ?_ ?_ ?_ v fn
  all_goals intros; simp_all [walk_nested, walkEntries, walkElems, Value.leaves, entriesLeaves, elemsLeaves]

theorem walk_nested_id (v : Value) : walk_nested v (fun s => s) = v := by
  refine walk_nested.induct
    (fun v fn => (∀ s, fn s = s) → walk_nested v fn = v)
    (fun l fn => (∀ s, fn s = s) → walkElems l fn = l)
    (fun l fn => (∀ s, fn s = s) → walkEntries l fn = l)
    ?_ ?_ ?_ ?_ ?_ ?_ ?_ v (fun s => s) (fun _ => rfl)
  all_goals intros; simp_all [walk_nested, walkEntries, walkElems]

/-- C6: `walk_nested` returns a tree of identical shape (same key
sequences of every mapping, same length and order of every sequence) with
the rule applied to every leaf scalar, and the identity rule returns a
tree equal to the input. The embedding is purely functional, so the input
tree is never mutated: the output is a freshly built value, exactly as the
dict/list comprehensions of `walk_nested` build fresh containers. -/
theorem walk_nested_shape_leaves_id (v : Value) (fn : Scalar → Scalar) :
    (walk_nested v fn).shape = v.shape ∧
    (walk_nested v fn).leaves = v.leaves.map fn ∧
    walk_nested v (fun s => s) = v :=
  ⟨walk_nested_shape v fn, walk_nested_leaves v fn, walk_nested_id v⟩

/-- C7: the orchestrator's leaf rule `transform` wraps every string
containing a newline into a rich-text (`RichText`) value and returns every
other scalar unchanged; in particular `"a\nb"` becomes rich text while
`"ab"` and `42` pass through. -/
theorem transform_newline_rule :
    (∀ s : String, '\n' ∈ s.data → transform (Scalar.str s) = Scalar.rich s) ∧
    (∀ s : String, '\n' ∉ s.data → transform (Scalar.str s) = Scalar.str s) ∧
    (∀ n : Int, transform (Scalar.int n) = Scalar.int n) ∧
    (∀ b : Bool, transform (Scalar.bool b) = Scalar.bool b) ∧
    transform Scalar.null = Scalar.null ∧
    (∀ s : String, transform (Scalar.rich s) = Scalar.rich s) ∧
    transform (Scalar.str "a\nb") = Scalar.rich "a\nb" ∧
    transform (Scalar.str "ab") = Scalar.str "ab" ∧
    transform (Scalar.int 42) = Scalar.int 42 := by
  refine ⟨?_, ?_, ?_, ?_, ?_, ?_, ?_, ?_, ?_⟩ <;>
    first
      | decide
      | (intros s h; simp [transform, h])
      | (intros; rfl)

/-- Witness for C7: the general newline clauses applied at the concrete
strings `"x\ny"` and `"xy"`. -/
theorem transform_newline_rule_witness :
    transform (Scalar.str "x\ny") = Scalar.rich "x\ny" ∧
    transform (Scalar.str "xy") = Scalar.str "xy" :=
  ⟨transform_newline_rule.1 "x\ny" (by decide),
   transform_newline_rule.2.1 "xy" (by decide)⟩

/-- C2: with a valid payload and no (or empty-string) `convert`, the
rendered document passes through unchanged: the body is exactly the
engine's rendering of the transformed data, the status is the
`HttpResponse` default 200, the content type is the one guessed from the
template's stored filename, and the Content-Disposition attachment
filename is the slug, a dot, and the extension `mimetypes` yields for
that content type. -/
theorem merge_no_convert_passthrough
    (env : Env) (settings : Settings) (template : Template) (payload : Payload)
    (d : Value) (ct : String)
    (hmime : env.guess_type template.template.name = some ct)
    (hdata : payload.dataField = some d)
    (hconv : payload.convertField = none ∨
      payload.convertField = some (Value.scalar (Scalar.str ""))) :
    TemplateView.merge env settings template payload =
      (Except.ok
        { content := env.render (walk_nested d transform),
          status := 200,
          contentType := ct,
          contentDisposition := some ("attachment; filename=\"" ++ template.slug ++ "." ++ env.extension_for ct ++ "\""),
          contentLength := none },
       [Event.transformData, Event.engineMerge]) := by
  rcases hconv with h | h <;>
    simp [TemplateView.merge, guess_extension, serializer_is_valid, truthy,
      Engine.merge, finalize, hmime, hdata, h]

/-- Witness for C2 at the fixture inputs: the rendered bytes pass through
with status 200; note the concrete filename is `tpl..doc` because
CPython's `guess_extension` result ".doc" already carries a dot. -/
theorem merge_no_convert_passthrough_witness :
    TemplateView.merge failEnv localSettings docTemplate payloadNoConvert =
      (Except.ok
        { content := [104, 105],
          status := 200,
          contentType := "application/msword",
          contentDisposition := some "attachment; filename=\"tpl..doc\"",
          contentLength := none },
       [Event.transformData, Event.engineMerge]) :=
  merge_no_convert_passthrough failEnv localSettings docTemplate payloadNoConvert
    (Value.scalar (Scalar.int 1)) "application/msword" rfl rfl (Or.inl rfl)

/-- C8: an invalid payload (no `data` member, or a `convert` member that
is not a string) makes `TemplateView.merge` raise `ValidationError` with
an empty side-effect trace: the data transform never runs and
`Engine.merge` is never invoked, so no rendering work occurs. -/
theorem merge_invalid_payload_short_circuit
    (env : Env) (settings : Settings) (template : Template) (payload : Payload)
    (ct : String)
    (hmime : env.guess_type template.template.name = some ct)
    (hinvalid : payload.dataField = none ∨
      (∃ v, payload.convertField = some v ∧ ∀ s, v ≠ Value.scalar (Scalar.str s))) :
    TemplateView.merge env settings template payload =
      (Except.error PyError.validationError, []) ∧
    Event.transformData ∉ (TemplateView.merge env settings template payload).2 ∧
    Event.engineMerge ∉ (TemplateView.merge env settings template payload).2 := by
  have h : TemplateView.merge env settings template payload =
      (Except.error PyError.validationError, []) := by
    rcases hinvalid with h | ⟨v, hv, hns⟩
    · simp [TemplateView.merge, guess_extension, serializer_is_valid, hmime, h]
    · rcases hd : payload.dataField with _ | d <;>
        rcases v with (_ | _ | _ | _ | _) | _ | _ <;>
        first
          | exact absurd rfl (hns _)
          | simp [TemplateView.merge, guess_extension, serializer_is_valid, hmime, hd, hv]
  exact ⟨h, by simp [h], by simp [h]⟩

/-- Witness for C8: a payload with no `data` member is rejected with an
empty trace. -/
theorem merge_invalid_payload_short_circuit_witness :
    TemplateView.merge failEnv localSettings docTemplate payloadNoData =
      (Except.error PyError.validationError, []) ∧
    Event.transformData ∉ (TemplateView.merge failEnv localSettings docTemplate payloadNoData).2 ∧
    Event.engineMerge ∉ (TemplateView.merge failEnv localSettings docTemplate payloadNoData).2 :=
  merge_invalid_payload_short_circuit failEnv localSettings docTemplate payloadNoData
    "application/msword" rfl (Or.inl rfl)

/-- C3: in local conversion mode the side-effect trace always has the
form transform, render, temporary-file create, write, subprocess run,
delete — whether the subprocess returns a result (any exit code) or
raises. The delete immediately follows the subprocess call and happens on
every exit path, so the temporary file is never retained past the
conversion call. -/
theorem merge_local_tmpfile_always_deleted
    (env : Env) (settings : Settings) (template : Template) (payload : Payload)
    (d : Value) (c ct : String)
    (hmime : env.guess_type template.template.name = some ct)
    (hdata : payload.dataField = some d)
    (hconv : payload.convertField = some (Value.scalar (Scalar.str c)))
    (hc : c ≠ "")
    (hlocal : settings.UNOCONV_LOCAL = true) :
    (TemplateView.merge env settings template payload).2 =
      [Event.transformData, Event.engineMerge, Event.tmpCreate,
       Event.tmpWrite, Event.unoconvRun, Event.tmpDelete] := by
  rcases hp : env.unoconv_process env.tmpfile_name c with e | pres <;>
    simp [TemplateView.merge, guess_extension, serializer_is_valid, truthy,
      Engine.merge, finalize, hmime, hdata, hconv, hc, hlocal, hp]

/-- Witness for C3 on the exception path: the fixture subprocess raises,
and the trace still ends with the temporary-file delete. -/
theorem merge_local_tmpfile_always_deleted_witness :
    (TemplateView.merge failEnv localSettings docTemplate payloadPdf).2 =
      [Event.transformData, Event.engineMerge, Event.tmpCreate,
       Event.tmpWrite, Event.unoconvRun, Event.tmpDelete] :=
  merge_local_tmpfile_always_deleted failEnv localSettings docTemplate payloadPdf
    (Value.scalar (Scalar.int 1)) "pdf" "application/msword" rfl rfl rfl (by decide) rfl

/-- C4: in local conversion mode, when the subprocess returns, the
response body is its standard output, the content type is the converter
result's own metadata, and the status is 200 exactly when the exit code
is 0 and 500 for every other exit code. -/
theorem merge_local_result_semantics
    (env : Env) (settings : Settings) (template : Template) (payload : Payload)
    (d : Value) (c ct : String) (pres : ProcResult)
    (hmime : env.guess_type template.template.name = some ct)
    (hdata : payload.dataField = some d)
    (hconv : payload.convertField = some (Value.scalar (Scalar.str c)))
    (hc : c ≠ "")
    (hlocal : settings.UNOCONV_LOCAL = true)
    (hproc : env.unoconv_process env.tmpfile_name c = Except.ok pres) :
    (TemplateView.merge env settings template payload).1 =
      Except.ok
        { content := pres.stdout,
          status := if pres.returncode = 0 then 200 else 500,
          contentType := pres.content_type,
          contentDisposition := some ("attachment; filename=\"" ++ template.slug ++ "." ++ c ++ "\""),
          contentLength := none } := by
  simp [TemplateView.merge, guess_extension, serializer_is_valid, truthy,
    Engine.merge, finalize, hmime, hdata, hconv, hc, hlocal, hproc]

/-- Witness for C4: the fixture subprocess exits 0 with stdout `[80]` and
content type `application/pdf`, and the response carries exactly those
with status 200. -/
theorem merge_local_result_semantics_witness :
    (TemplateView.merge okEnv localSettings docTemplate payloadPdf).1 =
      Except.ok
        { content := [80],
          status := 200,
          contentType := "application/pdf",
          contentDisposition := some "attachment; filename=\"tpl.pdf\"",
          contentLength := none } :=
  merge_local_result_semantics okEnv localSettings docTemplate payloadPdf
    (Value.scalar (Scalar.int 1)) "pdf" "application/msword" procOk
    rfl rfl rfl (by decide) rfl rfl

/-- C5: in remote conversion mode with the target format present in
`UNOCONV_FORMATS`, the remote response's HTTP status code and body are
used verbatim as the final status and body (including non-2xx responses
such as 500), while the content type and the filename extension come from
the static format table, never from the remote response. -/
theorem merge_remote_passthrough_semantics
    (env : Env) (settings : Settings) (template : Template) (payload : Payload)
    (d : Value) (c ct url : String) (fmt : Format) (rr : RemoteResponse)
    (hmime : env.guess_type template.template.name = some ct)
    (hdata : payload.dataField = some d)
    (hconv : payload.convertField = some (Value.scalar (Scalar.str c)))
    (hc : c ≠ "")
    (hremote : settings.UNOCONV_LOCAL = false)
    (hfmt : settings.UNOCONV_FORMATS.lookup c = some fmt)
    (hurl : url = settings.UNOCONV_URL ++ "/unoconv/" ++ c)
    (hpost : env.remote_post url (env.render (walk_nested d transform)) = rr) :
    TemplateView.merge env settings template payload =
      (Except.ok
        { content := rr.content,
          status := rr.status_code,
          contentType := fmt.mime,
          contentDisposition := some ("attachment; filename=\"" ++ template.slug ++ "." ++ fmt.extension ++ "\""),
          contentLength := none },
       [Event.transformData, Event.engineMerge, Event.networkPost url]) := by
  subst hurl
  simp [TemplateView.merge, guess_extension, serializer_is_valid, truthy,
    Engine.merge, finalize, hmime, hdata, hconv, hc, hremote, hfmt, hpost]

/-- Witness for C5: the fixture remote service answers 500 with body
`[101]`, and the final response passes exactly those through while taking
mime and extension from the `pdf` table row. -/
theorem merge_remote_passthrough_semantics_witness :
    TemplateView.merge failEnv remoteSettings docTemplate payloadPdf =
      (Except.ok
        { content := [101],
          status := 500,
          contentType := "application/pdf",
          contentDisposition := some "attachment; filename=\"tpl.pdf\"",
          contentLength := none },
       [Event.transformData, Event.engineMerge,
        Event.networkPost "http://conv/unoconv/pdf"]) :=
  merge_remote_passthrough_semantics failEnv remoteSettings docTemplate payloadPdf
    (Value.scalar (Scalar.int 1)) "pdf" "application/msword" "http://conv/unoconv/pdf"
    { extension := "pdf", mime := "application/pdf" }
    { status_code := 500, content := [101] }
    rfl rfl rfl (by decide) rfl rfl rfl rfl

/-- C1 counterexample: with an empty `UNOCONV_FORMATS` table, a remote
merge requesting `pdf` does issue the network POST — its event is in the
trace — and only then fails with the `KeyError` from
`settings.UNOCONV_FORMATS[convert]`. This refutes the claim that the
failure happens before any network call is attempted. -/
theorem merge_remote_missing_format_counterexample :
    (TemplateView.merge failEnv emptyFormatsSettings docTemplate payloadPdf).1 =
      Except.error (PyError.keyError "pdf") ∧
    Event.networkPost "http://conv/unoconv/pdf" ∈
      (TemplateView.merge failEnv emptyFormatsSettings docTemplate payloadPdf).2 := by
  refine ⟨rfl, ?_⟩
  simp [TemplateView.merge, guess_extension, serializer_is_valid, truthy,
    Engine.merge, finalize, failEnv, emptyFormatsSettings, localSettings,
    docTemplate, payloadPdf, walk_nested, transform, List.lookup]

/-- C1 (amended): in remote conversion mode, a convert format absent from
`UNOCONV_FORMATS` makes the merge fail with the `KeyError` of the table
lookup, but only after the POST to the remote service has been issued:
the code posts first (line 91) and indexes the table second (line 92). -/
theorem merge_remote_missing_format_fails_after_post
    (env : Env) (settings : Settings) (template : Template) (payload : Payload)
    (d : Value) (c ct url : String)
    (hmime : env.guess_type template.template.name = some ct)
    (hdata : payload.dataField = some d)
    (hconv : payload.convertField = some (Value.scalar (Scalar.str c)))
    (hc : c ≠ "")
    (hremote : settings.UNOCONV_LOCAL = false)
    (hmiss : settings.UNOCONV_FORMATS.lookup c = none)
    (hurl : url = settings.UNOCONV_URL ++ "/unoconv/" ++ c) :
    TemplateView.merge env settings template payload =
      (Except.error (PyError.keyError c),
       [Event.transformData, Event.engineMerge, Event.networkPost url]) := by
  subst hurl
  simp [TemplateView.merge, guess_extension, serializer_is_valid, truthy,
    Engine.merge, finalize, hmime, hdata, hconv, hc, hremote, hmiss]

/-- Witness for the amended C1 at the fixture inputs. -/
theorem merge_remote_missing_format_fails_after_post_witness :
    TemplateView.merge failEnv emptyFormatsSettings docTemplate payloadPdf =
      (Except.error (PyError.keyError "pdf"),
       [Event.transformData, Event.engineMerge,
        Event.networkPost "http://conv/unoconv/pdf"]) :=
  merge_remote_missing_format_fails_after_post failEnv emptyFormatsSettings
    docTemplate payloadPdf (Value.scalar (Scalar.int 1)) "pdf" "application/msword"
    "http://conv/unoconv/pdf" rfl rfl rfl (by decide) rfl rfl rfl

/-- C9: for a template whose stored filename has a recognizable MIME
type, the download endpoint returns the stored bytes byte-for-byte, a
`Content-Length` equal to `template.template.size` (the stored byte
count), and an attachment Content-Disposition. -/
theorem retrieve_streams_stored_bytes
    (env : Env) (template : Template) (mt : String)
    (hmime : env.guess_type template.template.name = some mt) :
    DownloadTemplateView.retrieve env template =
      Except.ok
        { content := template.template.content,
          status := 200,
          contentType := mt,
          contentDisposition := some ("attachment; filename=\"" ++ template.slug ++ env.extension_for mt ++ "\""),
          contentLength := some template.template.content.length } := by
  simp [DownloadTemplateView.retrieve, guess_extension, FileField.read,
    FileField.size, hmime]

/-- Witness for C9: the fixture template stores two bytes `[9, 9]` and the
download response carries exactly them with `Content-Length` 2. -/
theorem retrieve_streams_stored_bytes_witness :
    DownloadTemplateView.retrieve failEnv docTemplate =
      Except.ok
        { content := [9, 9],
          status := 200,
          contentType := "application/msword",
          contentDisposition := some "attachment; filename=\"tpl.doc\"",
          contentLength := some 2 } :=
  retrieve_streams_stored_bytes failEnv docTemplate "application/msword" rfl

/-- C10: when `mimetypes.guess_type` yields no MIME type for the stored
filename, both `TemplateView.merge` (for any payload, so in particular
one without `convert`) and `DownloadTemplateView.retrieve` raise the
`AttributeError` of `guess_extension(None)` instead of returning a
response with the generic `application/force-download` content type. -/
theorem unrecognized_mime_raises_attribute_error
    (env : Env) (settings : Settings) (template : Template) (payload : Payload)
    (hmime : env.guess_type template.template.name = none) :
    TemplateView.merge env settings template payload =
      (Except.error PyError.attributeError, []) ∧
    DownloadTemplateView.retrieve env template =
      Except.error PyError.attributeError := by
  constructor <;>
    simp [TemplateView.merge, DownloadTemplateView.retrieve, guess_extension, hmime]

/-- Witness for C10 in an environment recognizing no filename. -/
theorem unrecognized_mime_raises_attribute_error_witness :
    TemplateView.merge noMimeEnv localSettings docTemplate payloadNoConvert =
      (Except.error PyError.attributeError, []) ∧
    DownloadTemplateView.retrieve noMimeEnv docTemplate =
      Except.error PyError.attributeError :=
  unrecognized_mime_raises_attribute_error noMimeEnv localSettings docTemplate
    payloadNoConvert rfl
